import Mathlib

/-!
Verification of the esparrier-config host library (`src/esparrier-config/src/lib.rs`).

The device protocol engine is embedded shallowly:

* bytes are `Nat` (values `0..255`); packets are `List Nat`;
* the device is represented by its response script, a `List (List Nat)` of the
  successive results returned by `Esparrier::read`; a too-short script stands
  for a bulk transfer that never completes and is mapped to `Error.transferFailed`;
* every operation is modelled as a pure function from its arguments and the
  response script to its result together with the list of byte strings it
  passed to `Esparrier::write` (and, for OTA, the progress-callback calls);
* JSON values produced by `serde_json` for `EsparrierConfig` are modelled by
  the first-order type `JVal` (this struct only ever serializes strings,
  unsigned integers, booleans and arrays of strings), rendered to UTF-8 bytes
  exactly as `serde_json::to_vec` renders them;
* `Ipv4Addr`, `SocketAddrV4` and unsigned-integer string parsing follow the
  Rust standard library parsers (four decimal octets without leading zeros,
  a colon, a decimal port that may have leading zeros; `u8::from_str` accepts
  one leading plus sign).
-/

set_option maxRecDepth 100000

/-! ## Byte-level helpers -/

/-- Concatenation of the images of a list, `Iterator::flat_map`. -/
def catMap (f : α → List β) : List α → List β
  | [] => []
  | a :: l => f a ++ catMap f l

/-- Fuel-driven core of `slice::chunks`: split into runs of `n` elements. -/
def chunksF (n : Nat) : Nat → List α → List (List α)
  | _, [] => []
  | 0, _ => []
  | fuel + 1, l => l.take n :: chunksF n fuel (l.drop n)

/-- `slice::chunks(n)`: successive chunks of `n` elements, the last possibly
shorter.  The fuel `l.length` suffices whenever `0 < n`. -/
def chunks (n : Nat) (l : List α) : List (List α) :=
  chunksF n l.length l

/-- Little-endian bytes of a `u16` value (`u16::to_le_bytes`). -/
def le2 (n : Nat) : List Nat := [n % 256, n / 256 % 256]

/-- Little-endian bytes of a `u32` value (`u32::to_le_bytes`). -/
def le4 (n : Nat) : List Nat :=
  [n % 256, n / 256 % 256, n / 65536 % 256, n / 16777216 % 256]

/-- Zero-pad a packet to 64 bytes (`packet[..packet_data.len()].copy_from_slice`). -/
def pad64 (l : List Nat) : List Nat := l ++ List.replicate (64 - l.length) 0

/-! ## CRC32 (`crc32` in lib.rs) -/

/-- One shift-xor round of the bit-serial CRC32 loop. -/
def crc32Round (c : Nat) : Nat :=
  if c % 2 = 1 then (c / 2) ^^^ 0xEDB88320 else c / 2

/-- Process one byte: xor into the register, then eight rounds. -/
def crc32Step (c b : Nat) : Nat :=
  Nat.iterate crc32Round 8 (c ^^^ b % 256)

/-- `crc32(data)`: bit-serial IEEE 802.3 CRC-32, init `0xFFFFFFFF`, reflected
polynomial `0xEDB88320`, final complement (`!crc` on `u32`). -/
def crc32 (data : List Nat) : Nat :=
  (data.foldl crc32Step 0xFFFFFFFF) ^^^ 0xFFFFFFFF

/-! ## Errors (`ConfigError`, `Error` in lib.rs) -/

/-- `ConfigError`: field-level validation failures. -/
inductive ConfigError
  | fieldEmpty (f : String)
  | fieldTooLong (f : String)
  | fieldOutOfRange (f : String) (lo hi : Nat)
  | invalidEndpoint (f : String)
  | invalidIpAddress (f : String)
  | invalidIpCidr (f : String)
deriving DecidableEq, Repr

/-- `Error`: the library error type.  `transferFailed` additionally stands for
a read on an exhausted response script (a transfer that never completes). -/
inductive Error
  | deviceNotFound
  | unknownDevice
  | deviceBusy
  | permissionDenied
  | transferFailed
  | invalidResponse
  | formatError (m : String)
  | configError (e : ConfigError)
  | otaNotSupported
  | otaError (m : String)
deriving DecidableEq, Repr

instance [DecidableEq ε] [DecidableEq α] : DecidableEq (Except ε α) := fun x y =>
  match x, y with
  | .ok a, .ok b =>
    if h : a = b then isTrue (by rw [h]) else isFalse fun hh => h (Except.ok.inj hh)
  | .error a, .error b =>
    if h : a = b then isTrue (by rw [h]) else isFalse fun hh => h (Except.error.inj hh)
  | .ok _, .error _ => isFalse fun hh => Except.noConfusion hh
  | .error _, .ok _ => isFalse fun hh => Except.noConfusion hh

/-! ## Device state (`EsparrierState`) -/

/-- `EsparrierState`: decoded GetState response.  The `ip_prefix` source field
is named `ip_prefix_len` here. -/
structure EsparrierState where
  version_major : Nat
  version_minor : Nat
  version_patch : Nat
  feature_flags : Nat
  ip_address : Nat × Nat × Nat × Nat
  ip_prefix_len : Nat
  server_connected : Bool
  active : Bool
  keep_awake : Bool
  model_id : Nat
deriving DecidableEq, Repr

/-- `FeatureFlag`: device capability bits. -/
inductive FeatureFlag
  | led
  | smartLed
  | graphics
  | ota
  | clipboard
deriving DecidableEq

/-- The discriminant value of each `FeatureFlag` variant. -/
def FeatureFlag.toNat : FeatureFlag → Nat
  | .led => 0x01
  | .smartLed => 0x02
  | .graphics => 0x04
  | .ota => 0x40
  | .clipboard => 0x80

/-- `EsparrierState::has_feature`. -/
def EsparrierState.hasFeature (s : EsparrierState) (f : FeatureFlag) : Bool :=
  s.feature_flags &&& f.toNat != 0

/-- `EsparrierState::has_ota_support`. -/
def EsparrierState.hasOtaSupport (s : EsparrierState) : Bool :=
  s.hasFeature .ota

/-- `EsparrierState::from_bytes`, with Rust slice indexing made partial:
`bytes[i]` on an out-of-range index panics, which is modelled by `none`. -/
def fromBytes? (b : List Nat) : Option EsparrierState := do
  let v1 ← b.get? 1
  let v2 ← b.get? 2
  let v3 ← b.get? 3
  let ff ← b.get? 4
  let i1 ← b.get? 5
  let i2 ← b.get? 6
  let i3 ← b.get? 7
  let i4 ← b.get? 8
  let pfx ← b.get? 9
  let sc ← b.get? 10
  let ac ← b.get? 11
  let ka ← b.get? 12
  let mid ← b.get? 13
  pure ⟨v1, v2, v3, ff, (i1, i2, i3, i4), pfx, sc != 0, ac != 0, ka != 0, mid⟩

/-- `Esparrier::get_state` applied to the single response packet `r`:
the guard `result.len() < 13 || result[0] != b's'` yields `InvalidResponse`;
otherwise `from_bytes` runs, `Option`-valued because its slice indexing can
panic (`ok none` is the panic outcome, reachable only at length exactly 13). -/
def getStateResult (r : List Nat) : Except Error (Option EsparrierState) :=
  if r.length < 13 ∨ r.head? ≠ some 115 then .error .invalidResponse
  else .ok (fromBytes? r)

/-- The write issued by `get_state` before reading: the single byte `b"s"`. -/
def getStateWrites : List (List Nat) := [[115]]

/-! ## Configuration (`EsparrierConfig`) -/

/-- `EsparrierConfig`: the device configuration struct.  Rust `u16`/`u8`/`u32`
fields are `Nat`; the predicate `typeOk` below records their machine ranges. -/
structure EsparrierConfig where
  ssid : String
  password : String
  server : String
  screen_name : String
  screen_width : Nat
  screen_height : Nat
  flip_wheel : Bool
  polling_rate : Nat
  jiggle_interval : Nat
  brightness : Nat
  ip_addr : Option String
  dns_server : List String
  gateway : Option String
  vid : Nat
  pid : Nat
  manufacturer : String
  product : String
  serial_number : String
  landing_url : String
  watchdog_timeout : Nat
deriving DecidableEq, Repr

/-- Machine-integer ranges guaranteed by the Rust field types
(`u16`, `u16`, `u16`, `u16`, `u8`, `u16`, `u16`, `u32`). -/
def typeOk (c : EsparrierConfig) : Prop :=
  c.screen_width < 65536 ∧ c.screen_height < 65536 ∧ c.polling_rate < 65536 ∧
  c.jiggle_interval < 65536 ∧ c.brightness < 256 ∧ c.vid < 65536 ∧
  c.pid < 65536 ∧ c.watchdog_timeout < 4294967296

instance (c : EsparrierConfig) : Decidable (typeOk c) := by
  unfold typeOk; infer_instance

/-- The JSON values `serde_json` can produce for `EsparrierConfig` fields:
strings, unsigned integers, booleans, and arrays of strings (`dns_server`). -/
inductive JVal
  | str (s : String)
  | num (n : Nat)
  | bool (b : Bool)
  | strArr (l : List String)
deriving DecidableEq, Repr

/-- The serialized field list of a config, in declaration order, following the
serde attributes: a field is omitted exactly when it carries a
`skip_serializing_if` attribute and satisfies its condition. -/
def serializeConfig (c : EsparrierConfig) : List (String × JVal) :=
  [("ssid", .str c.ssid)]
  ++ (if c.password = "" then [] else [("password", .str c.password)])
  ++ [("server", .str c.server), ("screen_name", .str c.screen_name),
      ("screen_width", .num c.screen_width), ("screen_height", .num c.screen_height),
      ("flip_wheel", .bool c.flip_wheel)]
  ++ (if c.polling_rate = 200 then [] else [("polling_rate", .num c.polling_rate)])
  ++ (if c.jiggle_interval = 60 then [] else [("jiggle_interval", .num c.jiggle_interval)])
  ++ [("brightness", .num c.brightness)]
  ++ (match c.ip_addr with | none => [] | some s => [("ip_addr", .str s)])
  ++ (if c.dns_server = [] then [] else [("dns_server", .strArr c.dns_server)])
  ++ (match c.gateway with | none => [] | some s => [("gateway", .str s)])
  ++ (if c.vid = 0x0d0a then [] else [("vid", .num c.vid)])
  ++ (if c.pid = 0xc0de then [] else [("pid", .num c.pid)])
  ++ (if c.manufacturer = "0d0a.com" then [] else [("manufacturer", .str c.manufacturer)])
  ++ (if c.product = "Esparrier KVM" then [] else [("product", .str c.product)])
  ++ (if c.serial_number = "88888888" then [] else [("serial_number", .str c.serial_number)])
  ++ (if c.landing_url = "https://0d0a.com" then [] else [("landing_url", .str c.landing_url)])
  ++ (if c.watchdog_timeout = 15 then [] else [("watchdog_timeout", .num c.watchdog_timeout)])

/-- The field names present in the serialized JSON object. -/
def serializedKeys (c : EsparrierConfig) : List String :=
  (serializeConfig c).map Prod.fst

/-! ## JSON rendering (`serde_json::to_vec`, compact form) -/

/-- Lowercase hexadecimal digit, as `serde_json` uses in `\u00XX` escapes. -/
def hexDigit (n : Nat) : Nat := if n < 10 then 48 + n else 87 + n

/-- UTF-8 encoding of one character. -/
def utf8Bytes (c : Char) : List Nat :=
  let n := c.toNat
  if n < 128 then [n]
  else if n < 2048 then [192 + n / 64, 128 + n % 64]
  else if n < 65536 then [224 + n / 4096, 128 + n / 64 % 64, 128 + n % 64]
  else [240 + n / 262144, 128 + n / 4096 % 64, 128 + n / 64 % 64, 128 + n % 64]

/-- `serde_json` escaping of one character inside a string literal. -/
def escapeChar (c : Char) : List Nat :=
  if c = '"' then [92, 34]
  else if c = '\\' then [92, 92]
  else if c.toNat < 32 then
    if c.toNat = 8 then [92, 98]
    else if c.toNat = 9 then [92, 116]
    else if c.toNat = 10 then [92, 110]
    else if c.toNat = 12 then [92, 102]
    else if c.toNat = 13 then [92, 114]
    else [92, 117, 48, 48, hexDigit (c.toNat / 16), hexDigit (c.toNat % 16)]
  else utf8Bytes c

/-- Rendered JSON string literal: quote, escaped characters, quote. -/
def renderStr (s : String) : List Nat :=
  34 :: catMap escapeChar s.data ++ [34]

/-- Decimal rendering of an unsigned integer. -/
def renderNum (n : Nat) : List Nat :=
  (Nat.toDigits 10 n).map Char.toNat

/-- Join rendered pieces with commas. -/
def commaJoin : List (List Nat) → List Nat
  | [] => []
  | [x] => x
  | x :: xs => x ++ 44 :: commaJoin xs

/-- Rendered JSON value. -/
def renderVal : JVal → List Nat
  | .str s => renderStr s
  | .num n => renderNum n
  | .bool b => if b then [116, 114, 117, 101] else [102, 97, 108, 115, 101]
  | .strArr l => 91 :: commaJoin (l.map renderStr) ++ [93]

/-- Rendered JSON object in compact form. -/
def renderObj (l : List (String × JVal)) : List Nat :=
  123 :: commaJoin (l.map fun kv => renderStr kv.1 ++ 58 :: renderVal kv.2) ++ [125]

/-- `serde_json::to_vec(&config)`: the serialized JSON bytes of a config. -/
def configBytes (c : EsparrierConfig) : List Nat :=
  renderObj (serializeConfig c)

/-! ## JSON object parsing (serde `Deserialize` with `#[serde(default)]`) -/

/-- Look up a field by name in a serialized object. -/
def findField : List (String × JVal) → String → Option JVal
  | [], _ => none
  | (k, v) :: rest, key => if k = key then some v else findField rest key

/-- Deserialize a `String` field, with default for a missing field. -/
def getStrD (l : List (String × JVal)) (k : String) (d : String) : Option String :=
  match findField l k with
  | none => some d
  | some (.str s) => some s
  | some _ => none

/-- Deserialize an unsigned-integer field of the given exclusive bound. -/
def getNatD (l : List (String × JVal)) (k : String) (d bound : Nat) : Option Nat :=
  match findField l k with
  | none => some d
  | some (.num n) => if n < bound then some n else none
  | some _ => none

/-- Deserialize a `bool` field, with default for a missing field. -/
def getBoolD (l : List (String × JVal)) (k : String) (d : Bool) : Option Bool :=
  match findField l k with
  | none => some d
  | some (.bool b) => some b
  | some _ => none

/-- Deserialize an `Option<String>` field; a missing field is `None`. -/
def getOptStrD (l : List (String × JVal)) (k : String) : Option (Option String) :=
  match findField l k with
  | none => some none
  | some (.str s) => some (some s)
  | some _ => none

/-- Deserialize a `Vec<String>` field; a missing field is the empty vector. -/
def getStrArrD (l : List (String × JVal)) (k : String) : Option (List String) :=
  match findField l k with
  | none => some []
  | some (.strArr a) => some a
  | some _ => none

/-- First ten fields of the deserialization (split only to keep terms small). -/
def parseFieldsA (l : List (String × JVal)) :
    Option (String × String × String × String × Nat × Nat × Bool × Nat × Nat × Nat) :=
  (getStrD l "ssid" "").bind fun ssid =>
  (getStrD l "password" "").bind fun password =>
  (getStrD l "server" "").bind fun server =>
  (getStrD l "screen_name" "").bind fun screen_name =>
  (getNatD l "screen_width" 1920 65536).bind fun screen_width =>
  (getNatD l "screen_height" 1080 65536).bind fun screen_height =>
  (getBoolD l "flip_wheel" false).bind fun flip_wheel =>
  (getNatD l "polling_rate" 200 65536).bind fun polling_rate =>
  (getNatD l "jiggle_interval" 60 65536).bind fun jiggle_interval =>
  (getNatD l "brightness" 30 256).bind fun brightness =>
  some (ssid, password, server, screen_name, screen_width, screen_height,
    flip_wheel, polling_rate, jiggle_interval, brightness)

/-- Last ten fields of the deserialization. -/
def parseFieldsB (l : List (String × JVal)) :
    Option (Option String × List String × Option String × Nat × Nat ×
      String × String × String × String × Nat) :=
  (getOptStrD l "ip_addr").bind fun ip_addr =>
  (getStrArrD l "dns_server").bind fun dns_server =>
  (getOptStrD l "gateway").bind fun gateway =>
  (getNatD l "vid" 0x0d0a 65536).bind fun vid =>
  (getNatD l "pid" 0xc0de 65536).bind fun pid =>
  (getStrD l "manufacturer" "0d0a.com").bind fun manufacturer =>
  (getStrD l "product" "Esparrier KVM").bind fun product =>
  (getStrD l "serial_number" "88888888").bind fun serial_number =>
  (getStrD l "landing_url" "https://0d0a.com").bind fun landing_url =>
  (getNatD l "watchdog_timeout" 15 4294967296).bind fun watchdog_timeout =>
  some (ip_addr, dns_server, gateway, vid, pid, manufacturer, product,
    serial_number, landing_url, watchdog_timeout)

/-- serde deserialization of `EsparrierConfig` from a JSON object: each field
is looked up by name; missing fields take their declared defaults. -/
def parseConfig (l : List (String × JVal)) : Option EsparrierConfig :=
  (parseFieldsA l).bind fun a =>
  (parseFieldsB l).bind fun b =>
  some (EsparrierConfig.mk a.1 a.2.1 a.2.2.1 a.2.2.2.1 a.2.2.2.2.1
    a.2.2.2.2.2.1 a.2.2.2.2.2.2.1 a.2.2.2.2.2.2.2.1 a.2.2.2.2.2.2.2.2.1
    a.2.2.2.2.2.2.2.2.2 b.1 b.2.1 b.2.2.1 b.2.2.2.1 b.2.2.2.2.1
    b.2.2.2.2.2.1 b.2.2.2.2.2.2.1 b.2.2.2.2.2.2.2.1 b.2.2.2.2.2.2.2.2.1
    b.2.2.2.2.2.2.2.2.2)

/-! ## Rust standard-library string parsers (`Ipv4Addr`, `SocketAddrV4`, `u8`) -/

/-- Decimal value of a digit run. -/
def digitsVal (l : List Char) : Nat :=
  l.foldl (fun a c => a * 10 + (c.toNat - 48)) 0

/-- Split a character list at every occurrence of `sep` (`str::split`). -/
def splitOnChar (sep : Char) : List Char → List (List Char)
  | [] => [[]]
  | c :: rest =>
    let r := splitOnChar sep rest
    if c = sep then [] :: r
    else
      match r with
      | [] => [[c]]
      | g :: gs => (c :: g) :: gs

/-- Split at the first occurrence of `sep` (`str::split_once`). -/
def splitOnceChar (sep : Char) : List Char → Option (List Char × List Char)
  | [] => none
  | c :: rest =>
    if c = sep then some ([], rest)
    else (splitOnceChar sep rest).map fun p => (c :: p.1, p.2)

/-- One IPv4 octet as parsed by `core::net`: a non-empty digit run without a
leading zero, of value at most 255. -/
def parseOctet (l : List Char) : Option Nat :=
  if l.isEmpty then none
  else if !(l.all Char.isDigit) then none
  else if l.head? = some '0' ∧ l.length > 1 then none
  else if digitsVal l ≤ 255 then some (digitsVal l) else none

/-- `Ipv4Addr::from_str`: four octets joined by dots. -/
def parseIpv4L (l : List Char) : Option (Nat × Nat × Nat × Nat) :=
  match splitOnChar '.' l with
  | [a, b, c, d] =>
    (parseOctet a).bind fun va =>
    (parseOctet b).bind fun vb =>
    (parseOctet c).bind fun vc =>
    (parseOctet d).bind fun vd =>
    some (va, vb, vc, vd)
  | _ => none

/-- A port as parsed by `core::net`: a non-empty digit run (leading zeros
allowed) of value at most 65535. -/
def parsePort (l : List Char) : Option Nat :=
  if l.isEmpty then none
  else if !(l.all Char.isDigit) then none
  else if digitsVal l ≤ 65535 then some (digitsVal l) else none

/-- `SocketAddrV4::from_str`: an IPv4 address, a colon, a port. -/
def parseSocketAddrV4 (s : String) : Option ((Nat × Nat × Nat × Nat) × Nat) :=
  (splitOnceChar ':' s.data).bind fun p =>
  (parseIpv4L p.1).bind fun ip =>
  (parsePort p.2).bind fun port =>
  some (ip, port)

/-- `u8::from_str`: an optional leading plus sign, then a non-empty digit run
of value at most 255 (leading zeros allowed). -/
def parseU8 (l : List Char) : Option Nat :=
  let l2 := match l with | '+' :: rest => rest | _ => l
  if l2.isEmpty then none
  else if !(l2.all Char.isDigit) then none
  else if digitsVal l2 ≤ 255 then some (digitsVal l2) else none

/-! ## Validation (`EsparrierConfig::validate`) -/

/-- `validate_string`: reject empty, then reject over-length (`str::len` is
the UTF-8 byte count). -/
def validateString (s name : String) (maxLen : Nat) : Except Error Unit :=
  if s.isEmpty then .error (.configError (.fieldEmpty name))
  else if s.utf8ByteSize > maxLen then .error (.configError (.fieldTooLong name))
  else .ok ()

/-- `validate_num!`: inclusive range check. -/
def validateNum (v : Nat) (name : String) (lo hi : Nat) : Except Error Unit :=
  if v < lo ∨ v > hi then .error (.configError (.fieldOutOfRange name lo hi))
  else .ok ()

/-- The `ip_addr` check: one slash, an IPv4 address, a `u8` CIDR bit count. -/
def validateIpAddr : Option String → Except Error Unit
  | none => .ok ()
  | some ip =>
    match splitOnceChar '/' ip.data with
    | none => .error (.configError (.invalidIpAddress "ip_addr"))
    | some (l, r) =>
      if (parseIpv4L l).isNone then .error (.configError (.invalidIpAddress "ip_addr"))
      else if (parseU8 r).isNone then .error (.configError (.invalidIpCidr "ip_addr"))
      else .ok ()

/-- The `dns_server` loop: each entry must parse as IPv4. -/
def validateDns : List String → Except Error Unit
  | [] => .ok ()
  | d :: rest =>
    if (parseIpv4L d.data).isNone then
      .error (.configError (.invalidIpAddress "dns_server"))
    else validateDns rest

/-- The `gateway` check: must parse as IPv4 when present. -/
def validateGateway : Option String → Except Error Unit
  | none => .ok ()
  | some g =>
    if (parseIpv4L g.data).isNone then
      .error (.configError (.invalidIpAddress "gateway"))
    else .ok ()

/-- The `landing_url` check: length only, the URL may be empty. -/
def validateLanding (s : String) : Except Error Unit :=
  if s.utf8ByteSize > 255 then .error (.configError (.fieldTooLong "landing_url"))
  else .ok ()

/-- The first failing check, or success; `?`-propagation over a fixed list. -/
def firstErr : List (Except Error Unit) → Except Error Unit
  | [] => .ok ()
  | .ok () :: rest => firstErr rest
  | .error e :: _ => .error e

/-- `EsparrierConfig::validate`: all checks in source order. -/
def EsparrierConfig.validate (c : EsparrierConfig) : Except Error Unit :=
  firstErr
    [validateString c.ssid "ssid" 32,
     validateString c.password "password" 64,
     validateString c.server "server" 64,
     if (parseSocketAddrV4 c.server).isNone then
       .error (.configError (.invalidEndpoint "server")) else .ok (),
     validateString c.screen_name "screen_name" 64,
     validateNum c.screen_width "screen_width" 1 32767,
     validateNum c.screen_height "screen_height" 1 32767,
     validateNum c.brightness "brightness" 1 100,
     validateIpAddr c.ip_addr,
     validateDns c.dns_server,
     validateGateway c.gateway,
     validateString c.manufacturer "manufacturer" 64,
     validateString c.product "product" 64,
     validateString c.serial_number "serial_number" 64,
     validateLanding c.landing_url]

/-! ## Control operations -/

/-- Outcome of one `set_config` call: the returned result and the byte strings
passed to `Esparrier::write`, in order. -/
structure SetRun where
  result : Except Error Unit
  writes : List (List Nat)
deriving DecidableEq

/-- `Esparrier::set_config` against a response script: validate, serialize,
split into 64-byte blocks, send the `['w', num_blocks as u8]` header and the
blocks, then expect the one-byte `'o'` response. -/
def setConfig (c : EsparrierConfig) (script : List (List Nat)) : SetRun :=
  match c.validate with
  | .error e => ⟨.error e, []⟩
  | .ok () =>
    let data := configBytes c
    let blocks := chunks 64 data
    let writes := [119, blocks.length % 256] :: blocks
    match script with
    | [] => ⟨.error .transferFailed, writes⟩
    | r :: _ =>
      if r.length = 1 ∧ r.head? = some 111 then ⟨.ok (), writes⟩
      else ⟨.error .invalidResponse, writes⟩

/-- `<[u8]>::strip_suffix(&[0]).unwrap_or(..)`: drop one trailing zero byte. -/
def stripSuffixZero (l : List Nat) : List Nat :=
  match l.getLast? with
  | some 0 => l.dropLast
  | _ => l

/-- The reassembly `get_config` performs on the `N` data packets: strip one
trailing zero from each, concatenate, and keep only nonzero bytes `≤ 0xF4`. -/
def getConfigAssemble (pkts : List (List Nat)) : List Nat :=
  (catMap stripSuffixZero pkts).filter fun b => b != 0 && decide (b ≤ 244)

/-- `Esparrier::get_config` against a response script, with the JSON
deserializer abstracted as `parse` (`serde_json::from_slice`): check the
`['r', N]` header, read `N` packets, reassemble, and parse. -/
def getConfigOp (script : List (List Nat))
    (parse : List Nat → Option EsparrierConfig) : Except Error EsparrierConfig :=
  match script with
  | [] => .error .transferFailed
  | header :: rest =>
    if header.length = 2 ∧ header.head? = some 114 then
      let n := (header.get? 1).getD 0
      if rest.length < n then .error .transferFailed
      else
        match parse (getConfigAssemble (rest.take n)) with
        | none => .error (.formatError "Invalid JSON format")
        | some c => .ok c
    else .error .invalidResponse

/-- The write issued by `get_config`: the single byte `b"r"`. -/
def getConfigWrites : List (List Nat) := [[114]]

/-- The write issued by `commit_config`: the single byte `b"c"`. -/
def commitConfigWrites : List (List Nat) := [[99]]

/-- The write issued by `reboot_device`: the single byte `b"b"`. -/
def rebootDeviceWrites : List (List Nat) := [[98]]

/-- The write issued by `keep_awake`: `['k', enable as u8]`. -/
def keepAwakeWrites (enable : Bool) : List (List Nat) :=
  [[107, if enable then 1 else 0]]

/-- The write issued by `abort_ota`: the single byte `b"A"`. -/
def abortOtaWrites : List (List Nat) := [[65]]

/-- The write issued by `get_ota_progress`: the single byte `b"P"`. -/
def getOtaProgressWrites : List (List Nat) := [[80]]

/-! ## OTA engine (`Esparrier::upload_ota`) -/

/-- `Esparrier::parse_ota_error` on an `'e'` response. -/
def parseOtaError (r : List Nat) : Error :=
  if r.length ≥ 3 ∧ r.get? 1 = some 79 then
    .otaError
      (match r.get? 2 with
       | some 97 => "OTA already in progress"
       | some 110 => "OTA not started"
       | some 105 => "OTA initialization failed"
       | some 119 => "OTA write failed"
       | some 99 => "CRC mismatch"
       | some 102 => "OTA flush failed"
       | some 115 => "Invalid firmware size"
       | some 112 => "OTA partition not found"
       | _ => "Unknown OTA error")
  else .invalidResponse

/-- The OtaStart command: `'O' + size(4B LE) + crc32(4B LE)`. -/
def otaStartCmd (fw : List Nat) : List Nat :=
  79 :: (le4 fw.length ++ le4 (crc32 fw))

/-- The writes for one OtaData chunk: the header
`['D', packets as u8, length(2B LE)]` with `packets = ceil(len/64)`, then the
chunk as 64-byte zero-padded packets. -/
def otaChunkWrites (chunk : List Nat) : List (List Nat) :=
  (68 :: ((chunk.length + 63) / 64 % 256) :: le2 chunk.length)
    :: (chunks 64 chunk).map pad64

/-- Outcome of one `upload_ota` call: the result, the byte strings passed to
`write`, and the progress-callback invocations `(bytes_sent, total)`. -/
structure OtaRun where
  result : Except Error Unit
  writes : List (List Nat)
  callbacks : List (Nat × Nat)
deriving DecidableEq

/-- The chunk loop of `upload_ota`: for each chunk, write the OtaData header
and the padded packets, invoke the progress callback, then read the
acknowledgement (`'P'`/`'o'` continue, `'C'` completes, `'e'` is an OTA
error, anything else is invalid).  Running out of chunks without `'C'` is
the final `OtaError("OTA did not complete as expected")`. -/
def uploadOtaGo : List (List Nat) → Nat → Nat → List (List Nat) → OtaRun
  | [], _, _, _ => ⟨.error (.otaError "OTA did not complete as expected"), [], []⟩
  | chunk :: restChunks, sent, total, script =>
    let ws := otaChunkWrites chunk
    let sent2 := sent + chunk.length
    match script with
    | [] => ⟨.error .transferFailed, ws, [(sent2, total)]⟩
    | r :: srest =>
      match r.head? with
      | none => ⟨.error .invalidResponse, ws, [(sent2, total)]⟩
      | some b =>
        if b = 80 then
          let k := uploadOtaGo restChunks sent2 total srest
          ⟨k.result, ws ++ k.writes, (sent2, total) :: k.callbacks⟩
        else if b = 67 then ⟨.ok (), ws, [(sent2, total)]⟩
        else if b = 111 then
          let k := uploadOtaGo restChunks sent2 total srest
          ⟨k.result, ws ++ k.writes, (sent2, total) :: k.callbacks⟩
        else if b = 101 then ⟨.error (parseOtaError r), ws, [(sent2, total)]⟩
        else ⟨.error .invalidResponse, ws, [(sent2, total)]⟩

/-- `Esparrier::upload_ota` against a response script: size guard, OtaStart
with size and CRC32, first acknowledgement, then the chunk loop over
4096-byte chunks. -/
def uploadOta (fw : List Nat) (script : List (List Nat)) : OtaRun :=
  if fw.length = 0 ∨ fw.length > 1048576 then
    ⟨.error (.otaError ("Invalid firmware size: " ++ toString fw.length ++
      " (max 1048576 bytes)")), [], []⟩
  else
    let start := otaStartCmd fw
    match script with
    | [] => ⟨.error .transferFailed, [start], []⟩
    | r0 :: rest =>
      match r0.head? with
      | none => ⟨.error .invalidResponse, [start], []⟩
      | some b =>
        if b = 101 then ⟨.error (parseOtaError r0), [start], []⟩
        else if b ≠ 111 then ⟨.error .invalidResponse, [start], []⟩
        else
          let k := uploadOtaGo (chunks 4096 fw) 0 fw.length rest
          ⟨k.result, start :: k.writes, k.callbacks⟩

/-! ## Chunking lemmas -/

theorem chunksF_nil (n f : Nat) : chunksF n f ([] : List α) = [] := by
  cases f <;> rfl

theorem chunksF_fuel (n : Nat) (hn : 0 < n) :
    ∀ (f g : Nat) (l : List α), l.length ≤ f → l.length ≤ g →
      chunksF n f l = chunksF n g l := by
  intro f
  induction f with
  | zero =>
    intro g l hf _
    have : l = [] := List.eq_nil_of_length_eq_zero (Nat.le_antisymm hf (Nat.zero_le _))
    subst this
    simp [chunksF_nil]
  | succ f ih =>
    intro g l hf hg
    match l with
    | [] => simp [chunksF_nil]
    | a :: l' =>
      match g with
      | 0 => exact absurd hg (by simp)
      | g + 1 =>
        show (a :: l').take n :: chunksF n f ((a :: l').drop n)
            = (a :: l').take n :: chunksF n g ((a :: l').drop n)
        have hd : ((a :: l').drop n).length = (a :: l').length - n := by
          simp [List.length_drop]
        have h1 : ((a :: l').drop n).length ≤ f := by
          rw [hd]; simp at hf ⊢; omega
        have h2 : ((a :: l').drop n).length ≤ g := by
          rw [hd]; simp at hg ⊢; omega
        rw [ih g _ h1 h2]

theorem chunks_nil (n : Nat) : chunks n ([] : List α) = [] := rfl

theorem chunks_cons (n : Nat) (hn : 0 < n) (l : List α) (hl : l ≠ []) :
    chunks n l = l.take n :: chunks n (l.drop n) := by
  match l with
  | a :: l' =>
    show chunksF n (l'.length + 1) (a :: l') = _
    show (a :: l').take n :: chunksF n l'.length ((a :: l').drop n) = _
    rw [chunksF_fuel n hn l'.length ((a :: l').drop n).length ((a :: l').drop n)
      (by simp [List.length_drop]; omega) (Nat.le_refl _)]
    rfl

theorem chunks_of_length_le (n : Nat) (hn : 0 < n) (l : List α) (hl : l ≠ [])
    (hlen : l.length ≤ n) : chunks n l = [l] := by
  rw [chunks_cons n hn l hl, List.take_of_length_le hlen,
    List.drop_eq_nil_of_le hlen, chunks_nil]

theorem chunks_mem_length_le (n : Nat) (hn : 0 < n) :
    ∀ (l : List α), ∀ c ∈ chunks n l, c.length ≤ n := by
  have key : ∀ (f : Nat) (l : List α), l.length ≤ f →
      ∀ c ∈ chunks n l, c.length ≤ n := by
    intro f
    induction f with
    | zero =>
      intro l hf c hc
      have : l = [] := List.eq_nil_of_length_eq_zero (Nat.le_antisymm hf (Nat.zero_le _))
      subst this
      simp [chunks_nil] at hc
    | succ f ih =>
      intro l hf c hc
      match l, hc with
      | [], hc => simp [chunks_nil] at hc
      | a :: l', hc =>
        rw [chunks_cons n hn _ (by simp)] at hc
        rcases List.mem_cons.mp hc with h | h
        · subst h
          simp
        · exact ih _ (by simp [List.length_drop]; simp at hf; omega) _ h
  exact fun l c hc => key l.length l (Nat.le_refl _) c hc

theorem chunks_length (n : Nat) (hn : 0 < n) :
    ∀ (l : List α), (chunks n l).length = (l.length + n - 1) / n := by
  have key : ∀ (f : Nat) (l : List α), l.length ≤ f →
      (chunks n l).length = (l.length + n - 1) / n := by
    intro f
    induction f with
    | zero =>
      intro l hf
      have : l = [] := List.eq_nil_of_length_eq_zero (Nat.le_antisymm hf (Nat.zero_le _))
      subst this
      simp [chunks_nil]
      exact (Nat.div_eq_of_lt (by omega)).symm
    | succ f ih =>
      intro l hf
      match l with
      | [] =>
        simp [chunks_nil]
        exact (Nat.div_eq_of_lt (by omega)).symm
      | a :: l' =>
        rw [chunks_cons n hn _ (by simp), List.length_cons,
          ih _ (by simp [List.length_drop]; simp at hf; omega)]
        simp only [List.length_drop, List.length_cons]
        rcases le_or_lt (l'.length + 1) n with h | h
        · rw [Nat.sub_eq_zero_of_le h]
          have e1 : (0 + n - 1) / n = 0 := Nat.div_eq_of_lt (by omega)
          have e2 : (l'.length + 1 + n - 1) / n = 1 := by
            apply Nat.div_eq_of_lt_le <;> omega
          omega
        · rw [show l'.length + 1 - n + n - 1 = l'.length from by omega,
            show l'.length + 1 + n - 1 = l'.length + n from by omega,
            Nat.add_div_right _ hn]
  intro l
  exact key l.length l (Nat.le_refl _)

theorem pad64_length_of_le (l : List Nat) (h : l.length ≤ 64) :
    (pad64 l).length = 64 := by
  simp [pad64]
  omega

/-! ## Claim C4 — CRC32 -/

/-- C4: `crc32` computes IEEE 802.3 CRC-32 (reflected polynomial `0xEDB88320`,
initial value `0xFFFFFFFF`, final complement): the empty byte string hashes
to `0x00000000`, and the standard check input `b"123456789"` hashes to the
IEEE CRC-32 check value `0xCBF43926`. -/
theorem crc32_ieee_check_values :
    crc32 [] = 0x00000000 ∧
    crc32 [49, 50, 51, 52, 53, 54, 55, 56, 57] = 0xCBF43926 := by
  decide

/-! ## Claim C2 — GetState response length check -/

/-- C2 (code bug): the spec requires every GetState response shorter than 14
bytes to fail with `InvalidResponse`, but the code guards with
`result.len() < 13` and then `from_bytes` indexes `bytes[13]`; on a 13-byte
response with opcode `'s'` the guard passes and the decode panics with an
index out of bounds (`ok none` in this model) instead of returning
`InvalidResponse`.  Responses of 12 bytes or fewer do fail `InvalidResponse`,
and 14-byte responses decode correctly. -/
theorem getState_len13_panics :
    getStateResult [115, 1, 2, 3, 64, 192, 168, 1, 42, 24, 1, 0, 1] = .ok none ∧
    getStateResult [115, 1, 2, 3, 64, 192, 168, 1, 42, 24, 1, 0, 1] ≠
      .error .invalidResponse ∧
    getStateResult [115, 1, 2, 3, 64, 192, 168, 1, 42, 24, 1, 0] =
      .error .invalidResponse ∧
    getStateResult [115, 1, 2, 3, 64, 192, 168, 1, 42, 24, 1, 0, 1, 6] =
      .ok (some ⟨1, 2, 3, 64, (192, 168, 1, 42), 24, true, false, true, 6⟩) := by
  decide

/-! ## Claim C1 — no OTA feature-flag check in `upload_ota` -/

theorem parseOtaError_ne_otaNotSupported (r : List Nat) :
    parseOtaError r ≠ .otaNotSupported := by
  unfold parseOtaError
  split <;> simp

theorem uploadOtaGo_ne_otaNotSupported (cl : List (List Nat)) :
    ∀ sent total script,
      (uploadOtaGo cl sent total script).result ≠ .error .otaNotSupported := by
  induction cl with
  | nil => intro _ _ _; simp [uploadOtaGo]
  | cons chunk rest ih =>
    intro sent total script
    match script with
    | [] => simp [uploadOtaGo]
    | r :: srest =>
      simp only [uploadOtaGo]
      match hr : r.head? with
      | none => simp
      | some b =>
        by_cases h80 : b = 80
        · simp [h80, ih]
        · by_cases h67 : b = 67
          · simp [h80, h67]
          · by_cases h111 : b = 111
            · simp [h80, h67, h111, ih]
            · by_cases h101 : b = 101
              · simp [h80, h67, h111, h101, parseOtaError_ne_otaNotSupported r]
              · simp [h80, h67, h111, h101]

/-- C1 (counterexample): the claim says a device whose `feature_flags` has the
`Ota` bit clear makes `upload_ota` fail with `OtaNotSupported` before any
`'O'` write.  `upload_ota` never inspects feature flags: for the device state
with `feature_flags = 0` (no OTA support) and a cooperating response script,
the call succeeds, never returns `OtaNotSupported`, and its very first write
is the OtaStart packet starting with `'O'`. -/
theorem uploadOta_ignores_feature_flags :
    EsparrierState.hasOtaSupport ⟨1, 2, 3, 0, (192, 168, 1, 42), 24, true, false, true, 6⟩
      = false ∧
    (uploadOta [5] [[111], [67]]).result = .ok () ∧
    (uploadOta [5] [[111], [67]]).result ≠ .error .otaNotSupported ∧
    (uploadOta [5] [[111], [67]]).writes.head? = some (otaStartCmd [5]) ∧
    (otaStartCmd [5]).head? = some 79 := by
  decide

/-- C1 (amended): `upload_ota` performs no OTA-support check of its own: its
result is never `OtaNotSupported`, and for any firmware of accepted size
(1 to 0x100000 bytes) its first write is always the OtaStart `'O'` packet,
whatever the device's feature flags are.  (The feature-flag gate lives in the
CLI front-end, which refuses with its own error before calling
`upload_ota`.) -/
theorem uploadOta_never_otaNotSupported (fw : List Nat) (script : List (List Nat)) :
    (uploadOta fw script).result ≠ .error .otaNotSupported ∧
    (1 ≤ fw.length → fw.length ≤ 1048576 →
      (uploadOta fw script).writes.head? = some (otaStartCmd fw) ∧
      (otaStartCmd fw).head? = some 79) := by
  constructor
  · unfold uploadOta
    split
    · simp
    · match script with
      | [] => simp
      | r0 :: rest =>
        simp only
        match hr : r0.head? with
        | none => simp
        | some b =>
          by_cases h101 : b = 101
          · simp [h101, parseOtaError_ne_otaNotSupported r0]
          · by_cases h111 : b = 111
            · simp [h101, h111, uploadOtaGo_ne_otaNotSupported]
            · simp [h101, h111]
  · intro h1 h2
    unfold uploadOta
    rw [if_neg (by omega)]
    constructor
    · match script with
      | [] => simp
      | r0 :: rest =>
        simp only
        match hr : r0.head? with
        | none => simp
        | some b =>
          by_cases h101 : b = 101
          · simp [h101]
          · by_cases h111 : b = 111
            · simp [h101, h111]
            · simp [h101, h111]
    · simp [otaStartCmd]

/-- C1 (witness): the amended theorem applied to the one-byte firmware `[5]`
and a cooperating script. -/
theorem uploadOta_never_otaNotSupported_witness :
    (uploadOta [5] [[111], [67]]).result ≠ .error .otaNotSupported ∧
    (uploadOta [5] [[111], [67]]).writes.head? = some (otaStartCmd [5]) :=
  ⟨(uploadOta_never_otaNotSupported [5] [[111], [67]]).1,
   ((uploadOta_never_otaNotSupported [5] [[111], [67]]).2 (by decide) (by decide)).1⟩

/-! ## Claim C3 — OTA chunking and progress callbacks -/

theorem chunks4096_of_8000 (fw : List Nat) (h : fw.length = 8000) :
    chunks 4096 fw = [fw.take 4096, fw.drop 4096] := by
  have hne : fw ≠ [] := by intro h0; rw [h0] at h; simp at h
  have hd : (fw.drop 4096).length = 3904 := by simp [List.length_drop, h]
  have hdne : fw.drop 4096 ≠ [] := by
    intro h0; rw [h0] at hd; simp at hd
  rw [chunks_cons 4096 (by omega) fw hne,
    chunks_of_length_le 4096 (by omega) _ hdne (by omega)]

/-- C3: after a successful OtaStart acknowledgement, `upload_ota` sends the
firmware in chunks of at most 4096 bytes, each as the header
`['D', packets, len_lo, len_hi]` with `packets = ceil(chunk_len/64)` and the
length little-endian, followed by the chunk as 64-byte zero-padded packets,
and invokes the progress callback with the cumulative `(bytes_sent, total)`
after transmitting the chunk and before reading its acknowledgement.  For any
8000-byte firmware this gives chunks of 4096 and 3904 bytes with headers
`[68, 64, 0, 16]` and `[68, 61, 64, 15]`, and exactly two callback calls
`(4096, 8000)` and `(8000, 8000)` — the second even if the final
acknowledgement is never delivered, showing the callback precedes the read. -/
theorem uploadOta_8000_trace (fw : List Nat) (h : fw.length = 8000) :
    uploadOta fw [[111], [111], [67]] =
      ⟨.ok (),
       otaStartCmd fw ::
         (([68, 64, 0, 16] :: (chunks 64 (fw.take 4096)).map pad64) ++
          ([68, 61, 64, 15] :: (chunks 64 (fw.drop 4096)).map pad64)),
       [(4096, 8000), (8000, 8000)]⟩ ∧
    (chunks 4096 fw).map List.length = [4096, 3904] ∧
    (uploadOta fw [[111], [111]]).callbacks = [(4096, 8000), (8000, 8000)] ∧
    (∀ p ∈ (chunks 64 (fw.take 4096)).map pad64, p.length = 64) ∧
    (∀ p ∈ (chunks 64 (fw.drop 4096)).map pad64, p.length = 64) := by
  have ht : (fw.take 4096).length = 4096 := by simp [List.length_take, h]
  have hd : (fw.drop 4096).length = 3904 := by simp [List.length_drop, h]
  refine ⟨?_, ?_, ?_, ?_, ?_⟩
  · unfold uploadOta
    rw [if_neg (by omega)]
    simp only [List.head?]
    rw [chunks4096_of_8000 fw h]
    simp only [uploadOtaGo, List.head?, otaChunkWrites, le2, ht, hd, h]
    norm_num
  · rw [chunks4096_of_8000 fw h]
    simp [ht, hd]
  · unfold uploadOta
    rw [if_neg (by omega)]
    simp only [List.head?]
    rw [chunks4096_of_8000 fw h]
    simp only [uploadOtaGo, List.head?, otaChunkWrites, le2, ht, hd, h]
    norm_num
  · intro p hp
    simp only [List.mem_map] at hp
    obtain ⟨q, hq, rfl⟩ := hp
    exact pad64_length_of_le q (chunks_mem_length_le 64 (by omega) _ q hq)
  · intro p hp
    simp only [List.mem_map] at hp
    obtain ⟨q, hq, rfl⟩ := hp
    exact pad64_length_of_le q (chunks_mem_length_le 64 (by omega) _ q hq)

/-- C3 (witness): the trace theorem applied to the all-zero 8000-byte
firmware. -/
theorem uploadOta_8000_trace_witness :
    (List.replicate 8000 0).length = 8000 ∧
    (uploadOta (List.replicate 8000 0) [[111], [111], [67]]).callbacks =
      [(4096, 8000), (8000, 8000)] := by
  have hlen : (List.replicate 8000 (0 : Nat)).length = 8000 :=
    List.length_replicate 8000 0
  refine ⟨hlen, ?_⟩
  rw [(uploadOta_8000_trace (List.replicate 8000 0) hlen).1]

/-! ## Claim C10 — every write is at most 64 bytes -/

theorem otaChunkWrites_le_64 (chunk : List Nat) :
    ∀ w ∈ otaChunkWrites chunk, w.length ≤ 64 := by
  intro w hw
  unfold otaChunkWrites at hw
  rcases List.mem_cons.mp hw with h | h
  · subst h; simp [le2]
  · simp only [List.mem_map] at h
    obtain ⟨q, hq, rfl⟩ := h
    rw [pad64_length_of_le q (chunks_mem_length_le 64 (by omega) _ q hq)]

theorem uploadOtaGo_writes_le_64 (cl : List (List Nat)) :
    ∀ sent total script, ∀ w ∈ (uploadOtaGo cl sent total script).writes,
      w.length ≤ 64 := by
  induction cl with
  | nil => intro _ _ _ w hw; simp [uploadOtaGo] at hw
  | cons chunk rest ih =>
    intro sent total script w hw
    match script with
    | [] =>
      simp only [uploadOtaGo] at hw
      exact otaChunkWrites_le_64 chunk w hw
    | r :: srest =>
      simp only [uploadOtaGo] at hw
      match hr : r.head? with
      | none =>
        rw [hr] at hw
        exact otaChunkWrites_le_64 chunk w hw
      | some b =>
        rw [hr] at hw
        by_cases h80 : b = 80
        · simp only [h80, if_pos rfl] at hw
          rcases List.mem_append.mp hw with h | h
          · exact otaChunkWrites_le_64 chunk w h
          · exact ih _ total srest w h
        · by_cases h67 : b = 67
          · simp only [h80, h67, if_neg, if_pos rfl, reduceIte] at hw
            exact otaChunkWrites_le_64 chunk w hw
          · by_cases h111 : b = 111
            · simp only [h80, h67, h111, reduceIte] at hw
              rcases List.mem_append.mp hw with h | h
              · exact otaChunkWrites_le_64 chunk w h
              · exact ih _ total srest w h
            · by_cases h101 : b = 101
              · simp only [h80, h67, h111, h101, reduceIte] at hw
                exact otaChunkWrites_le_64 chunk w hw
              · simp only [h80, h67, h111, h101, reduceIte] at hw
                exact otaChunkWrites_le_64 chunk w hw

/-- C10: every byte string that any public operation passes to the internal
`write` function is at most 64 bytes long, so the assertion
`data.len() <= 64` in `Esparrier::write` holds on every call reachable
through the public API. -/
theorem all_writes_le_64 :
    (∀ c s, ∀ w ∈ (setConfig c s).writes, w.length ≤ 64) ∧
    (∀ fw s, ∀ w ∈ (uploadOta fw s).writes, w.length ≤ 64) ∧
    (∀ w ∈ getStateWrites, w.length ≤ 64) ∧
    (∀ w ∈ getConfigWrites, w.length ≤ 64) ∧
    (∀ w ∈ commitConfigWrites, w.length ≤ 64) ∧
    (∀ w ∈ rebootDeviceWrites, w.length ≤ 64) ∧
    (∀ b, ∀ w ∈ keepAwakeWrites b, w.length ≤ 64) ∧
    (∀ w ∈ abortOtaWrites, w.length ≤ 64) ∧
    (∀ w ∈ getOtaProgressWrites, w.length ≤ 64) := by
  refine ⟨?_, ?_, ?_, ?_, ?_, ?_, ?_, ?_, ?_⟩
  · intro c s w hw
    unfold setConfig at hw
    match hv : c.validate with
    | .error e => rw [hv] at hw; simp at hw
    | .ok () =>
      rw [hv] at hw
      simp only at hw
      have hw2 : w ∈ [119, (chunks 64 (configBytes c)).length % 256]
          :: chunks 64 (configBytes c) := by
        match s with
        | [] => exact hw
        | r :: _ =>
          by_cases hok : r.length = 1 ∧ r.head? = some 111
          · simpa only [if_pos hok] using hw
          · simpa only [if_neg hok] using hw
      rcases List.mem_cons.mp hw2 with h | h
      · subst h; simp
      · exact chunks_mem_length_le 64 (by omega) _ w h
  · intro fw s w hw
    have shape : (uploadOta fw s).writes = [] ∨
        (uploadOta fw s).writes = [otaStartCmd fw] ∨
        ∃ rest, (uploadOta fw s).writes =
          otaStartCmd fw :: (uploadOtaGo (chunks 4096 fw) 0 fw.length rest).writes := by
      unfold uploadOta
      split
      · left; rfl
      · match s with
        | [] => right; left; rfl
        | r0 :: rest =>
          simp only
          match hr : r0.head? with
          | none => right; left; rfl
          | some b =>
            by_cases h101 : b = 101
            · simp [h101]
            · by_cases h111 : b = 111
              · simp [h101, h111]
                exact Or.inr ⟨rest, rfl⟩
              · simp [h101, h111]
    rcases shape with hs | hs | ⟨rest, hs⟩
    · rw [hs] at hw; simp at hw
    · rw [hs] at hw
      simp only [List.mem_singleton] at hw
      subst hw
      simp [otaStartCmd, le4]
    · rw [hs] at hw
      rcases List.mem_cons.mp hw with h | h
      · subst h; simp [otaStartCmd, le4]
      · exact uploadOtaGo_writes_le_64 _ _ _ _ w h
  · intro w hw; simp [getStateWrites] at hw; simp [hw]
  · intro w hw; simp [getConfigWrites] at hw; simp [hw]
  · intro w hw; simp [commitConfigWrites] at hw; simp [hw]
  · intro w hw; simp [rebootDeviceWrites] at hw; simp [hw]
  · intro b w hw; simp [keepAwakeWrites] at hw; simp [hw]
  · intro w hw; simp [abortOtaWrites] at hw; simp [hw]
  · intro w hw; simp [getOtaProgressWrites] at hw; simp [hw]

/-- A sample valid configuration used by concrete witnesses. -/
def sampleConfig : EsparrierConfig :=
  ⟨"wifi", "pw", "192.168.1.2:24800", "screen", 1920, 1080, false, 200, 60, 30,
   none, [], none, 0x0d0a, 0xc0de, "0d0a.com", "Esparrier KVM", "88888888",
   "https://0d0a.com", 15⟩

/-- C10 (witness): the bound instantiated at the WriteConfig header of a
concrete `set_config` call and at a padded OTA data packet. -/
theorem all_writes_le_64_witness :
    ([119, 3] ∈ (setConfig sampleConfig [[111]]).writes ∧
      ([119, 3] : List Nat).length ≤ 64) ∧
    (pad64 [1, 2, 3] ∈ (uploadOta [1, 2, 3] [[111], [67]]).writes ∧
      (pad64 [1, 2, 3]).length ≤ 64) :=
  ⟨⟨by decide, all_writes_le_64.1 sampleConfig [[111]] [119, 3] (by decide)⟩,
   ⟨by decide, all_writes_le_64.2.1 [1, 2, 3] [[111], [67]] (pad64 [1, 2, 3]) (by decide)⟩⟩

/-! ## Claim C5 — which fields the serialization contains -/

theorem mem_fst_ite_nil (p : Prop) [Decidable p] (k k' : String) (v : JVal) :
    (k ∈ (if p then ([] : List (String × JVal)) else [(k', v)]).map Prod.fst) ↔
      (¬p ∧ k = k') := by
  split <;> simp_all

theorem mem_fst_opt (o : Option String) (k k' : String) (f : String → JVal) :
    (k ∈ (match o with
          | none => ([] : List (String × JVal))
          | some s => [(k', f s)]).map Prod.fst) ↔ (o ≠ none ∧ k = k') := by
  cases o <;> simp

theorem exists_mem_ite_nil (p : Prop) [Decidable p] (k k' : String) (v : JVal) :
    (∃ x, (k, x) ∈ (if p then ([] : List (String × JVal)) else [(k', v)])) ↔
      (¬p ∧ k = k') := by
  split <;> simp_all

theorem exists_mem_opt (o : Option String) (k k' : String) (f : String → JVal) :
    (∃ x, (k, x) ∈ ((match o with
          | none => []
          | some s => [(k', f s)]) : List (String × JVal))) ↔
      (o ≠ none ∧ k = k') := by
  cases o <;> simp

/-- The configuration whose every field equals its declared default. -/
def defaultsConfig : EsparrierConfig :=
  ⟨"", "", "", "", 1920, 1080, false, 200, 60, 30, none, [], none,
   0x0d0a, 0xc0de, "0d0a.com", "Esparrier KVM", "88888888",
   "https://0d0a.com", 15⟩

/-- C5 (counterexample): the claim says a field appears in the JSON iff its
value differs from its declared default, naming `screen_width` (default 1920)
as an example.  But `screen_width` carries no `skip_serializing_if`
attribute: in the all-defaults configuration it equals 1920 and is still
serialized, so the equivalence fails. -/
theorem screen_width_serialized_at_default :
    ¬(("screen_width" ∈ serializedKeys defaultsConfig) ↔
      defaultsConfig.screen_width ≠ 1920) := by
  decide

set_option maxHeartbeats 2000000 in
/-- C5 (amended): a field is omitted from the JSON iff it carries a serde
`skip_serializing_if` attribute and meets that attribute's condition (which
for every such field compares against its deserialization default, except
`password`, whose condition is emptiness).  Concretely, for every config:
`ssid`, `server`, `screen_name`, `screen_width`, `screen_height`,
`flip_wheel` and `brightness` are always present, whatever their values;
`password` is present iff non-empty; `polling_rate` iff ≠ 200;
`jiggle_interval` iff ≠ 60; `ip_addr`/`gateway` iff set; `dns_server` iff
non-empty; `vid` iff ≠ 0x0d0a; `pid` iff ≠ 0xc0de; `manufacturer` iff
≠ "0d0a.com"; `product` iff ≠ "Esparrier KVM"; `serial_number` iff
≠ "88888888"; `landing_url` iff ≠ "https://0d0a.com"; `watchdog_timeout`
iff ≠ 15. -/
theorem serializedKeys_iff (c : EsparrierConfig) :
    ("ssid" ∈ serializedKeys c) ∧
    (("password" ∈ serializedKeys c) ↔ c.password ≠ "") ∧
    ("server" ∈ serializedKeys c) ∧
    ("screen_name" ∈ serializedKeys c) ∧
    ("screen_width" ∈ serializedKeys c) ∧
    ("screen_height" ∈ serializedKeys c) ∧
    ("flip_wheel" ∈ serializedKeys c) ∧
    (("polling_rate" ∈ serializedKeys c) ↔ c.polling_rate ≠ 200) ∧
    (("jiggle_interval" ∈ serializedKeys c) ↔ c.jiggle_interval ≠ 60) ∧
    ("brightness" ∈ serializedKeys c) ∧
    (("ip_addr" ∈ serializedKeys c) ↔ c.ip_addr ≠ none) ∧
    (("dns_server" ∈ serializedKeys c) ↔ c.dns_server ≠ []) ∧
    (("gateway" ∈ serializedKeys c) ↔ c.gateway ≠ none) ∧
    (("vid" ∈ serializedKeys c) ↔ c.vid ≠ 0x0d0a) ∧
    (("pid" ∈ serializedKeys c) ↔ c.pid ≠ 0xc0de) ∧
    (("manufacturer" ∈ serializedKeys c) ↔ c.manufacturer ≠ "0d0a.com") ∧
    (("product" ∈ serializedKeys c) ↔ c.product ≠ "Esparrier KVM") ∧
    (("serial_number" ∈ serializedKeys c) ↔ c.serial_number ≠ "88888888") ∧
    (("landing_url" ∈ serializedKeys c) ↔ c.landing_url ≠ "https://0d0a.com") ∧
    (("watchdog_timeout" ∈ serializedKeys c) ↔ c.watchdog_timeout ≠ 15) := by
  simp [serializedKeys, serializeConfig, List.map_append, List.mem_append,
    mem_fst_ite_nil, mem_fst_opt, exists_mem_ite_nil, exists_mem_opt]

/-! ## Claim C6 — serialize/parse round-trip -/

theorem findField_nil (k : String) : findField [] k = none := rfl

theorem findField_cons (k' : String) (v : JVal) (rest : List (String × JVal))
    (k : String) :
    findField ((k', v) :: rest) k = if k' = k then some v else findField rest k := rfl

theorem findField_append (l1 l2 : List (String × JVal)) (k : String) :
    findField (l1 ++ l2) k =
      (match findField l1 k with
       | some v => some v
       | none => findField l2 k) := by
  induction l1 with
  | nil => simp [findField]
  | cons kv rest ih =>
    simp only [List.cons_append, findField]
    split <;> simp [ih]

theorem findField_ite_ne (p : Prop) [Decidable p] (k' k : String) (v : JVal)
    (h : ¬k' = k) :
    findField (if p then [] else [(k', v)]) k = none := by
  split <;> simp [findField, h]

theorem findField_ite_self (p : Prop) [Decidable p] (k : String) (v : JVal) :
    findField (if p then [] else [(k, v)]) k = if p then none else some v := by
  split <;> simp [findField]

theorem findField_opt_ne (o : Option String) (k' k : String) (f : String → JVal)
    (h : ¬k' = k) :
    findField ((match o with
      | none => []
      | some s => [(k', f s)]) : List (String × JVal)) k = none := by
  cases o <;> simp [findField, h]

theorem findField_opt_self (o : Option String) (k : String) (f : String → JVal) :
    findField ((match o with
      | none => []
      | some s => [(k, f s)]) : List (String × JVal)) k = Option.map f o := by
  cases o <;> simp [findField]

theorem getStrD_ssid (c : EsparrierConfig) :
    getStrD (serializeConfig c) "ssid" "" = some c.ssid := by
  simp [getStrD, serializeConfig, findField_append, findField_ite_ne,
      findField_ite_self, findField_opt_ne, findField_opt_self, findField_cons,
      findField_nil]

theorem getStrD_password (c : EsparrierConfig) :
    getStrD (serializeConfig c) "password" "" = some c.password := by
  by_cases h : c.password = "" <;>
    simp [getStrD, serializeConfig, findField_append, findField_ite_ne,
      findField_ite_self, findField_opt_ne, findField_opt_self, findField_cons,
      findField_nil, h]

theorem getStrD_server (c : EsparrierConfig) :
    getStrD (serializeConfig c) "server" "" = some c.server := by
  simp [getStrD, serializeConfig, findField_append, findField_ite_ne,
      findField_ite_self, findField_opt_ne, findField_opt_self, findField_cons,
      findField_nil]

theorem getStrD_screen_name (c : EsparrierConfig) :
    getStrD (serializeConfig c) "screen_name" "" = some c.screen_name := by
  simp [getStrD, serializeConfig, findField_append, findField_ite_ne,
      findField_ite_self, findField_opt_ne, findField_opt_self, findField_cons,
      findField_nil]

theorem getNatD_screen_width (c : EsparrierConfig) (hb : c.screen_width < 65536) :
    getNatD (serializeConfig c) "screen_width" 1920 65536 = some c.screen_width := by
  simp [getNatD, serializeConfig, findField_append, findField_ite_ne,
      findField_ite_self, findField_opt_ne, findField_opt_self, findField_cons,
      findField_nil, hb]

theorem getNatD_screen_height (c : EsparrierConfig) (hb : c.screen_height < 65536) :
    getNatD (serializeConfig c) "screen_height" 1080 65536 = some c.screen_height := by
  simp [getNatD, serializeConfig, findField_append, findField_ite_ne,
      findField_ite_self, findField_opt_ne, findField_opt_self, findField_cons,
      findField_nil, hb]

theorem getBoolD_flip_wheel (c : EsparrierConfig) :
    getBoolD (serializeConfig c) "flip_wheel" false = some c.flip_wheel := by
  simp [getBoolD, serializeConfig, findField_append, findField_ite_ne,
      findField_ite_self, findField_opt_ne, findField_opt_self, findField_cons,
      findField_nil]

theorem getNatD_polling_rate (c : EsparrierConfig) (hb : c.polling_rate < 65536) :
    getNatD (serializeConfig c) "polling_rate" 200 65536 = some c.polling_rate := by
  by_cases h : c.polling_rate = 200 <;>
    simp [getNatD, serializeConfig, findField_append, findField_ite_ne,
      findField_ite_self, findField_opt_ne, findField_opt_self, findField_cons,
      findField_nil, hb, h]

theorem getNatD_jiggle_interval (c : EsparrierConfig) (hb : c.jiggle_interval < 65536) :
    getNatD (serializeConfig c) "jiggle_interval" 60 65536 = some c.jiggle_interval := by
  by_cases h : c.jiggle_interval = 60 <;>
    simp [getNatD, serializeConfig, findField_append, findField_ite_ne,
      findField_ite_self, findField_opt_ne, findField_opt_self, findField_cons,
      findField_nil, hb, h]

theorem getNatD_brightness (c : EsparrierConfig) (hb : c.brightness < 256) :
    getNatD (serializeConfig c) "brightness" 30 256 = some c.brightness := by
  simp [getNatD, serializeConfig, findField_append, findField_ite_ne,
      findField_ite_self, findField_opt_ne, findField_opt_self, findField_cons,
      findField_nil, hb]

theorem getOptStrD_ip_addr (c : EsparrierConfig) :
    getOptStrD (serializeConfig c) "ip_addr" = some c.ip_addr := by
  cases hia : c.ip_addr <;>
    simp [getOptStrD, serializeConfig, findField_append, findField_ite_ne,
      findField_ite_self, findField_opt_ne, findField_opt_self, findField_cons,
      findField_nil, hia]

theorem getStrArrD_dns_server (c : EsparrierConfig) :
    getStrArrD (serializeConfig c) "dns_server" = some c.dns_server := by
  by_cases h : c.dns_server = [] <;>
    simp [getStrArrD, serializeConfig, findField_append, findField_ite_ne,
      findField_ite_self, findField_opt_ne, findField_opt_self, findField_cons,
      findField_nil, h]

theorem getOptStrD_gateway (c : EsparrierConfig) :
    getOptStrD (serializeConfig c) "gateway" = some c.gateway := by
  cases hg : c.gateway <;>
    simp [getOptStrD, serializeConfig, findField_append, findField_ite_ne,
      findField_ite_self, findField_opt_ne, findField_opt_self, findField_cons,
      findField_nil, hg]

theorem getNatD_vid (c : EsparrierConfig) (hb : c.vid < 65536) :
    getNatD (serializeConfig c) "vid" 3338 65536 = some c.vid := by
  by_cases h : c.vid = 3338 <;>
    simp [getNatD, serializeConfig, findField_append, findField_ite_ne,
      findField_ite_self, findField_opt_ne, findField_opt_self, findField_cons,
      findField_nil, hb, h]

theorem getNatD_pid (c : EsparrierConfig) (hb : c.pid < 65536) :
    getNatD (serializeConfig c) "pid" 49374 65536 = some c.pid := by
  by_cases h : c.pid = 49374 <;>
    simp [getNatD, serializeConfig, findField_append, findField_ite_ne,
      findField_ite_self, findField_opt_ne, findField_opt_self, findField_cons,
      findField_nil, hb, h]

theorem getStrD_manufacturer (c : EsparrierConfig) :
    getStrD (serializeConfig c) "manufacturer" "0d0a.com" = some c.manufacturer := by
  by_cases h : c.manufacturer = "0d0a.com" <;>
    simp [getStrD, serializeConfig, findField_append, findField_ite_ne,
      findField_ite_self, findField_opt_ne, findField_opt_self, findField_cons,
      findField_nil, h]

theorem getStrD_product (c : EsparrierConfig) :
    getStrD (serializeConfig c) "product" "Esparrier KVM" = some c.product := by
  by_cases h : c.product = "Esparrier KVM" <;>
    simp [getStrD, serializeConfig, findField_append, findField_ite_ne,
      findField_ite_self, findField_opt_ne, findField_opt_self, findField_cons,
      findField_nil, h]

theorem getStrD_serial_number (c : EsparrierConfig) :
    getStrD (serializeConfig c) "serial_number" "88888888" = some c.serial_number := by
  by_cases h : c.serial_number = "88888888" <;>
    simp [getStrD, serializeConfig, findField_append, findField_ite_ne,
      findField_ite_self, findField_opt_ne, findField_opt_self, findField_cons,
      findField_nil, h]

theorem getStrD_landing_url (c : EsparrierConfig) :
    getStrD (serializeConfig c) "landing_url" "https://0d0a.com" = some c.landing_url := by
  by_cases h : c.landing_url = "https://0d0a.com" <;>
    simp [getStrD, serializeConfig, findField_append, findField_ite_ne,
      findField_ite_self, findField_opt_ne, findField_opt_self, findField_cons,
      findField_nil, h]

theorem getNatD_watchdog_timeout (c : EsparrierConfig) (hb : c.watchdog_timeout < 4294967296) :
    getNatD (serializeConfig c) "watchdog_timeout" 15 4294967296 = some c.watchdog_timeout := by
  by_cases h : c.watchdog_timeout = 15 <;>
    simp [getNatD, serializeConfig, findField_append, findField_ite_ne,
      findField_ite_self, findField_opt_ne, findField_opt_self, findField_cons,
      findField_nil, hb, h]

theorem parse_serialize_core (c : EsparrierConfig) (ht : typeOk c) :
    parseConfig (serializeConfig c) = some c := by
  obtain ⟨hw, hh, hpr, hj, hb, hv, hpid, hwd⟩ := ht
  simp only [parseConfig, parseFieldsA, parseFieldsB,
    getStrD_ssid c, getStrD_password c, getStrD_server c, getStrD_screen_name c,
    getNatD_screen_width c hw, getNatD_screen_height c hh,
    getBoolD_flip_wheel c, getNatD_polling_rate c hpr,
    getNatD_jiggle_interval c hj, getNatD_brightness c hb,
    getOptStrD_ip_addr c, getStrArrD_dns_server c, getOptStrD_gateway c,
    getNatD_vid c hv, getNatD_pid c hpid, getStrD_manufacturer c,
    getStrD_product c, getStrD_serial_number c, getStrD_landing_url c,
    getNatD_watchdog_timeout c hwd, Option.bind]

/-- C6: for every valid configuration (machine-integer fields in range and
`validate` succeeding), deserializing the serialized JSON object succeeds and
returns the configuration unchanged: every field that the serializer omitted
because it equalled its default (including an empty, redacted `password`) is
re-filled with that same default by the parser. -/
theorem config_roundtrip (c : EsparrierConfig) (ht : typeOk c)
    (hv : c.validate = .ok ()) :
    parseConfig (serializeConfig c) = some c :=
  parse_serialize_core c ht

/-- C6 (witness): the round-trip theorem applied to a concrete valid
configuration. -/
theorem config_roundtrip_witness :
    typeOk sampleConfig ∧ sampleConfig.validate = .ok () ∧
    parseConfig (serializeConfig sampleConfig) = some sampleConfig :=
  ⟨by decide, by decide, config_roundtrip sampleConfig (by decide) (by decide)⟩

/-! ## Claim C7 — empty required strings -/

/-- A validation outcome that is success or a field-level `ConfigError`. -/
def okOrCe (r : Except Error Unit) : Prop :=
  r = .ok () ∨ ∃ ce, r = .error (.configError ce)

theorem okOrCe_validateString (s name : String) (m : Nat) :
    okOrCe (validateString s name m) := by
  unfold okOrCe validateString
  split
  · exact .inr ⟨.fieldEmpty name, rfl⟩
  · split
    · exact .inr ⟨.fieldTooLong name, rfl⟩
    · exact .inl rfl

theorem okOrCe_validateNum (v : Nat) (name : String) (lo hi : Nat) :
    okOrCe (validateNum v name lo hi) := by
  unfold okOrCe validateNum
  split
  · exact .inr ⟨.fieldOutOfRange name lo hi, rfl⟩
  · exact .inl rfl

theorem okOrCe_validateIpAddr (o : Option String) : okOrCe (validateIpAddr o) := by
  match o with
  | none => exact .inl rfl
  | some ip =>
    rcases hsp : splitOnceChar '/' ip.data with _ | ⟨l, r⟩
    · exact .inr ⟨.invalidIpAddress "ip_addr", by simp [validateIpAddr, hsp]⟩
    · by_cases h1 : (parseIpv4L l).isNone
      · exact .inr ⟨.invalidIpAddress "ip_addr", by simp [validateIpAddr, hsp, h1]⟩
      · by_cases h2 : (parseU8 r).isNone
        · exact .inr ⟨.invalidIpCidr "ip_addr", by simp [validateIpAddr, hsp, h1, h2]⟩
        · exact .inl (by simp [validateIpAddr, hsp, h1, h2])

theorem okOrCe_validateDns (l : List String) : okOrCe (validateDns l) := by
  induction l with
  | nil => exact .inl rfl
  | cons d rest ih =>
    unfold okOrCe validateDns
    split
    · exact .inr ⟨.invalidIpAddress "dns_server", rfl⟩
    · exact ih

theorem okOrCe_validateGateway (o : Option String) : okOrCe (validateGateway o) := by
  match o with
  | none => exact .inl rfl
  | some g =>
    by_cases h1 : (parseIpv4L g.data).isNone
    · exact .inr ⟨.invalidIpAddress "gateway", by simp [validateGateway, h1]⟩
    · exact .inl (by simp [validateGateway, h1])

theorem okOrCe_validateLanding (s : String) : okOrCe (validateLanding s) := by
  unfold okOrCe validateLanding
  split
  · exact .inr ⟨.fieldTooLong "landing_url", rfl⟩
  · exact .inl rfl

theorem firstErr_okOrCe (l : List (Except Error Unit))
    (h : ∀ e ∈ l, okOrCe e) : okOrCe (firstErr l) := by
  induction l with
  | nil => exact .inl rfl
  | cons e rest ih =>
    rcases h e (List.mem_cons_self e rest) with he | ⟨ce, he⟩
    · subst he
      exact ih fun x hx => h x (List.mem_cons_of_mem _ hx)
    · subst he
      exact .inr ⟨ce, rfl⟩

theorem validate_okOrCe (c : EsparrierConfig) : okOrCe c.validate := by
  unfold EsparrierConfig.validate
  apply firstErr_okOrCe
  intro e he
  simp only [List.mem_cons, List.not_mem_nil, or_false] at he
  rcases he with h|h|h|h|h|h|h|h|h|h|h|h|h|h|h <;> subst h
  · exact okOrCe_validateString _ _ _
  · exact okOrCe_validateString _ _ _
  · exact okOrCe_validateString _ _ _
  · unfold okOrCe
    split
    · exact .inr ⟨.invalidEndpoint "server", rfl⟩
    · exact .inl rfl
  · exact okOrCe_validateString _ _ _
  · exact okOrCe_validateNum _ _ _ _
  · exact okOrCe_validateNum _ _ _ _
  · exact okOrCe_validateNum _ _ _ _
  · exact okOrCe_validateIpAddr _
  · exact okOrCe_validateDns _
  · exact okOrCe_validateGateway _
  · exact okOrCe_validateString _ _ _
  · exact okOrCe_validateString _ _ _
  · exact okOrCe_validateString _ _ _
  · exact okOrCe_validateLanding _

theorem firstErr_ok_mem (l : List (Except Error Unit))
    (h : firstErr l = .ok ()) : ∀ e ∈ l, e = .ok () := by
  induction l with
  | nil => intro e he; simp at he
  | cons e rest ih =>
    intro x hx
    match e with
    | .ok () =>
      rcases List.mem_cons.mp hx with hh | hh
      · subst hh; rfl
      · exact ih h x hh
    | .error er => simp [firstErr] at h

theorem validateString_ok_ne (s name : String) (m : Nat)
    (h : validateString s name m = .ok ()) : s ≠ "" := by
  intro hs
  subst hs
  simp [validateString, show ("" : String).isEmpty = true from rfl] at h

theorem validate_ok_strings (c : EsparrierConfig) (h : c.validate = .ok ()) :
    c.ssid ≠ "" ∧ c.password ≠ "" ∧ c.server ≠ "" ∧ c.screen_name ≠ "" ∧
    c.manufacturer ≠ "" ∧ c.product ≠ "" ∧ c.serial_number ≠ "" := by
  unfold EsparrierConfig.validate at h
  have hm := firstErr_ok_mem _ h
  refine ⟨validateString_ok_ne _ "ssid" 32
      (hm (validateString c.ssid "ssid" 32) (by simp)),
    validateString_ok_ne _ "password" 64
      (hm (validateString c.password "password" 64) (by simp)),
    validateString_ok_ne _ "server" 64
      (hm (validateString c.server "server" 64) (by simp)),
    validateString_ok_ne _ "screen_name" 64
      (hm (validateString c.screen_name "screen_name" 64) (by simp)),
    validateString_ok_ne _ "manufacturer" 64
      (hm (validateString c.manufacturer "manufacturer" 64) (by simp)),
    validateString_ok_ne _ "product" 64
      (hm (validateString c.product "product" 64) (by simp)),
    validateString_ok_ne _ "serial_number" 64
      (hm (validateString c.serial_number "serial_number" 64) (by simp))⟩

/-- The configuration that is valid except for an empty `landing_url`. -/
def landingEmptyConfig : EsparrierConfig :=
  ⟨"wifi", "pw", "192.168.1.2:24800", "screen", 1920, 1080, false, 200, 60, 30,
   none, [], none, 0x0d0a, 0xc0de, "0d0a.com", "Esparrier KVM", "88888888",
   "", 15⟩

/-- C7 (counterexample): the claim lists `landing_url` among the required
strings whose emptiness makes `set_config` fail with `FieldEmpty`.  But
`validate` only length-checks `landing_url` ("The landing URL can be empty"):
with an empty `landing_url` and everything else valid, `set_config` validates
successfully, performs its writes and returns `Ok`. -/
theorem empty_landing_url_accepted :
    landingEmptyConfig.landing_url = "" ∧
    landingEmptyConfig.validate = .ok () ∧
    (setConfig landingEmptyConfig [[111]]).result = .ok () ∧
    (setConfig landingEmptyConfig [[111]]).writes ≠ [] := by
  decide

/-- C7 (amended): for every config in which any one of the seven required
strings `ssid`, `password`, `server`, `screen_name`, `manufacturer`,
`product`, `serial_number` is empty, `set_config` returns a `ConfigError`
(the first failing check's error, which is `FieldEmpty` naming the field when
the empty field is the first check to fail) and writes nothing to the device;
`landing_url` may be empty without error. -/
theorem setConfig_rejects_empty_required (c : EsparrierConfig)
    (s : List (List Nat))
    (h : c.ssid = "" ∨ c.password = "" ∨ c.server = "" ∨ c.screen_name = "" ∨
      c.manufacturer = "" ∨ c.product = "" ∨ c.serial_number = "") :
    (∃ ce, (setConfig c s).result = .error (.configError ce)) ∧
    (setConfig c s).writes = [] := by
  have hne : c.validate ≠ .ok () := by
    intro hok
    have strs := validate_ok_strings c hok
    rcases h with h|h|h|h|h|h|h
    · exact strs.1 h
    · exact strs.2.1 h
    · exact strs.2.2.1 h
    · exact strs.2.2.2.1 h
    · exact strs.2.2.2.2.1 h
    · exact strs.2.2.2.2.2.1 h
    · exact strs.2.2.2.2.2.2 h
  rcases validate_okOrCe c with hok | ⟨ce, hce⟩
  · exact absurd hok hne
  · exact ⟨⟨ce, by simp [setConfig, hce]⟩, by simp [setConfig, hce]⟩

/-- The configuration that is valid except for an empty `ssid`. -/
def emptySsidConfig : EsparrierConfig :=
  ⟨"", "pw", "192.168.1.2:24800", "screen", 1920, 1080, false, 200, 60, 30,
   none, [], none, 0x0d0a, 0xc0de, "0d0a.com", "Esparrier KVM", "88888888",
   "https://0d0a.com", 15⟩

/-- C7 (witness): the amended theorem applied to a config with empty `ssid`. -/
theorem setConfig_rejects_empty_required_witness :
    emptySsidConfig.ssid = "" ∧
    ((∃ ce, (setConfig emptySsidConfig [[111]]).result =
        .error (.configError ce)) ∧
      (setConfig emptySsidConfig [[111]]).writes = []) :=
  ⟨by decide,
   setConfig_rejects_empty_required emptySsidConfig [[111]] (by decide)⟩

/-! ## Claim C9 — WriteConfig block count truncation -/

def bigDnsConfig : EsparrierConfig :=
  { sampleConfig with dns_server := List.replicate 1000 "255.255.255.255" }

theorem commaJoin_length_cons (x y : List Nat) (t : List (List Nat)) :
    (commaJoin (x :: y :: t)).length = x.length + 1 + (commaJoin (y :: t)).length := by
  simp [commaJoin]
  omega

theorem commaJoin_replicate_length (n : Nat) (x : List Nat) :
    (commaJoin (List.replicate (n + 1) x)).length = (n + 1) * x.length + n := by
  induction n with
  | zero => simp [commaJoin]
  | succ n ih =>
    rw [List.replicate_succ, List.replicate_succ, commaJoin_length_cons,
      ← List.replicate_succ, ih]
    have hsm : (n + 1 + 1) * x.length = (n + 1) * x.length + x.length :=
      Nat.succ_mul (n + 1) x.length
    rw [hsm]
    omega

theorem commaJoin_mem_length_le (x : List Nat) (xs : List (List Nat))
    (h : x ∈ xs) : x.length ≤ (commaJoin xs).length := by
  induction xs with
  | nil => simp at h
  | cons y t ih =>
    match t with
    | [] =>
      simp at h
      subst h
      simp [commaJoin]
    | z :: t2 =>
      rcases List.mem_cons.mp h with hh | hh
      · subst hh
        rw [commaJoin_length_cons]
        omega
      · have := ih hh
        rw [commaJoin_length_cons]
        omega

theorem bigDnsConfig_ser :
    serializeConfig bigDnsConfig =
      [("ssid", .str "wifi"), ("password", .str "pw"),
       ("server", .str "192.168.1.2:24800"), ("screen_name", .str "screen"),
       ("screen_width", .num 1920), ("screen_height", .num 1080),
       ("flip_wheel", .bool false), ("brightness", .num 30),
       ("dns_server", .strArr (List.replicate 1000 "255.255.255.255"))] := by
  have hRne : List.replicate 1000 "255.255.255.255" ≠ [] := by
    intro h0
    have := congrArg List.length h0
    simp at this
  simp [serializeConfig, bigDnsConfig, sampleConfig, hRne]

theorem bigDnsConfig_bytes_big : 16320 < (configBytes bigDnsConfig).length := by
  rw [configBytes, bigDnsConfig_ser]
  simp only [renderObj, List.map_cons, List.map_nil]
  have hx : (renderStr "255.255.255.255").length = 17 := by decide
  have hco : (commaJoin (List.replicate 1000 (renderStr "255.255.255.255"))).length
      = 17999 := by
    have h9 := commaJoin_replicate_length 999 (renderStr "255.255.255.255")
    rw [hx] at h9
    norm_num at h9
    exact h9
  have hmem : (renderStr "dns_server" ++ 58 ::
      renderVal (.strArr (List.replicate 1000 "255.255.255.255"))) ∈
      [renderStr "ssid" ++ 58 :: renderVal (.str "wifi"),
       renderStr "password" ++ 58 :: renderVal (.str "pw"),
       renderStr "server" ++ 58 :: renderVal (.str "192.168.1.2:24800"),
       renderStr "screen_name" ++ 58 :: renderVal (.str "screen"),
       renderStr "screen_width" ++ 58 :: renderVal (.num 1920),
       renderStr "screen_height" ++ 58 :: renderVal (.num 1080),
       renderStr "flip_wheel" ++ 58 :: renderVal (.bool false),
       renderStr "brightness" ++ 58 :: renderVal (.num 30),
       renderStr "dns_server" ++ 58 ::
         renderVal (.strArr (List.replicate 1000 "255.255.255.255"))] := by
    simp
  have hlast : 16320 <
      (renderStr "dns_server" ++ 58 ::
        renderVal (.strArr (List.replicate 1000 "255.255.255.255"))).length := by
    simp only [renderVal, List.map_replicate, List.length_append,
      List.length_cons, hco]
    omega
  have hle := commaJoin_mem_length_le _ _ hmem
  simp only [List.length_cons, List.length_append]
  omega

/-- C9: for every valid configuration whose serialized JSON is longer than
16320 bytes (more than 255 blocks of 64 bytes — reachable because the length
of the `dns_server` list is never validated), the block count `set_config`
puts in the `['w', num_blocks]` header is the true block count reduced modulo
256 (`blocks.len() as u8`), which is then different from the true count. -/
theorem setConfig_header_mod256 (c : EsparrierConfig) (s : List (List Nat))
    (hv : c.validate = .ok ()) (hlen : 16320 < (configBytes c).length) :
    (setConfig c s).writes.head? =
      some [119, (chunks 64 (configBytes c)).length % 256] ∧
    (chunks 64 (configBytes c)).length % 256 ≠
      (chunks 64 (configBytes c)).length := by
  constructor
  · unfold setConfig
    rw [hv]
    simp only
    match s with
    | [] => rfl
    | r :: _ =>
      by_cases hok : r.length = 1 ∧ r.head? = some 111
      · simp [hok]
      · simp [hok]
  · rw [chunks_length 64 (by omega)]
    have h256 : 256 ≤ ((configBytes c).length + 64 - 1) / 64 := by
      refine (Nat.le_div_iff_mul_le (by omega)).mpr ?_
      omega
    omega

/-- C9 (witness): the truncation theorem applied to a valid configuration
with 1000 `dns_server` entries, whose JSON exceeds 16320 bytes. -/
theorem setConfig_header_mod256_witness :
    bigDnsConfig.validate = .ok () ∧
    16320 < (configBytes bigDnsConfig).length ∧
    ((setConfig bigDnsConfig [[111]]).writes.head? =
        some [119, (chunks 64 (configBytes bigDnsConfig)).length % 256] ∧
      (chunks 64 (configBytes bigDnsConfig)).length % 256 ≠
        (chunks 64 (configBytes bigDnsConfig)).length) :=
  ⟨by decide, bigDnsConfig_bytes_big,
   setConfig_header_mod256 bigDnsConfig [[111]] (by decide) bigDnsConfig_bytes_big⟩

/-! ## Claim C8 — ReadConfig reassembly -/

theorem stripSuffixZero_eq_spec (l : List Nat) :
    stripSuffixZero l =
      if l.getLast? = some 0 then l.take (l.length - 1) else l := by
  unfold stripSuffixZero
  match h : l.getLast? with
  | none => simp
  | some 0 => simp [List.dropLast_eq_take]
  | some (k + 1) => simp

/-- C8: `get_config` accepts exactly a 2-byte header `['r', N]` (anything
else is `InvalidResponse`), reads `N` packets, strips exactly one trailing
zero byte from each packet if present, concatenates them, keeps only bytes
`b` with `b ≠ 0` and `b ≤ 0xF4`, and parses the filtered buffer as JSON; a
parse failure is `FormatError("Invalid JSON format")`. -/
theorem getConfig_pipeline :
    (∀ (parse : List Nat → Option EsparrierConfig) (n : Nat)
        (pkts rest : List (List Nat)), pkts.length = n →
      getConfigOp ([114, n] :: (pkts ++ rest)) parse =
        (match parse ((catMap (fun l => if l.getLast? = some 0
              then l.take (l.length - 1) else l) pkts).filter
            (fun b => b != 0 && decide (b ≤ 244))) with
         | none => .error (.formatError "Invalid JSON format")
         | some c => .ok c)) ∧
    (∀ (parse : List Nat → Option EsparrierConfig) (hdr : List Nat)
        (s : List (List Nat)), hdr.length ≠ 2 ∨ hdr.head? ≠ some 114 →
      getConfigOp (hdr :: s) parse = .error .invalidResponse) := by
  have hstrip : (fun l => if l.getLast? = some 0
      then l.take (l.length - 1) else (l : List Nat)) = stripSuffixZero := by
    funext l
    exact (stripSuffixZero_eq_spec l).symm
  constructor
  · intro parse n pkts rest h
    subst h
    simp only [getConfigOp]
    rw [if_pos (⟨rfl, rfl⟩ : ([114, pkts.length] : List Nat).length = 2 ∧
      ([114, pkts.length] : List Nat).head? = some 114)]
    show (if (pkts ++ rest).length < pkts.length then Except.error Error.transferFailed
      else match parse (getConfigAssemble ((pkts ++ rest).take pkts.length)) with
        | none => Except.error (Error.formatError "Invalid JSON format")
        | some c => Except.ok c) = _
    rw [if_neg (by simp only [List.length_append]; omega)]
    rw [List.take_left, hstrip]
    rfl
  · intro parse hdr s h
    simp only [getConfigOp]
    rw [if_neg (by tauto)]

/-- C8 (witness): the pipeline theorem applied to two concrete packets (one
with a trailing zero, one with a protocol-reserved byte `0xFA`) and the
always-failing parser. -/
theorem getConfig_pipeline_witness :
    ([[123, 0], [125, 250]] : List (List Nat)).length = 2 ∧
    getConfigOp [[114, 2], [123, 0], [125, 250]] (fun _ => none) =
      .error (.formatError "Invalid JSON format") :=
  ⟨rfl, getConfig_pipeline.1 (fun _ => none) 2 [[123, 0], [125, 250]] [] rfl⟩
